import Mathlib

/-!
Shallow embedding of `src/Math.h` (namespace `math`) from the repository
`anupyldd/math`, together with theorems settling the frozen claims about its
specification.

Modelling conventions:
* C++ `double`/`float` values are idealised as exact numbers; where only ring
  operations occur the element type is kept generic (instantiated at `ℚ`, `ℤ`
  or `ℝ`), and `ℝ` with `Real.sqrt` is used where the source calls
  `std::sqrt`.
* Throwing code (`operator[]`) is modelled with `Except String`.
* Fixed-size element storage (`std::array<T, n>`) is modelled as `Fin n → α`.
-/

namespace MathH

/-- `Vec2<T>` (Math.h lines 306-403): two public fields `x`, `y`. -/
structure Vec2 (α : Type) where
  x : α
  y : α
deriving DecidableEq

/-- `Vec3<T>` (Math.h lines 405-490): three public fields `x`, `y`, `z`. -/
structure Vec3 (α : Type) where
  x : α
  y : α
  z : α
deriving DecidableEq

/-- `Vec4<T>` (Math.h lines 492-578): four public fields `x`, `y`, `z`, `w`. -/
structure Vec4 (α : Type) where
  x : α
  y : α
  z : α
  w : α
deriving DecidableEq

/-- `Sqr` (line 655): `T Sqr(T a) { return a * a; }`. -/
def Sqr {α : Type} [Mul α] (a : α) : α := a * a

/-- `Avg(T a, T b)` (line 659): `(a + b) / 2`. -/
def Avg {α : Type} [Add α] [Div α] [OfNat α 2] (a b : α) : α := (a + b) / 2

/-- `Vec2::MagSq` (line 325): `x * x + y * y`. -/
def Vec2.MagSq {α : Type} [Add α] [Mul α] (v : Vec2 α) : α := v.x * v.x + v.y * v.y

/-- `Vec3::MagSq` (line 422): `x * x + y * y + z * z`. -/
def Vec3.MagSq {α : Type} [Add α] [Mul α] (v : Vec3 α) : α :=
  v.x * v.x + v.y * v.y + v.z * v.z

/-- `Vec4::MagSq` (line 509): `x * x + y * y + z * z + w * w`. -/
def Vec4.MagSq {α : Type} [Add α] [Mul α] (v : Vec4 α) : α :=
  v.x * v.x + v.y * v.y + v.z * v.z + v.w * v.w

/-- Vector-vector `operator+` for `Vec2` (lines 389-390), elementwise. -/
def Vec2.addV {α : Type} [Add α] (lhs rhs : Vec2 α) : Vec2 α :=
  ⟨lhs.x + rhs.x, lhs.y + rhs.y⟩

/-- Vector-vector `operator-` for `Vec2` (lines 391-392), elementwise. -/
def Vec2.subV {α : Type} [Sub α] (lhs rhs : Vec2 α) : Vec2 α :=
  ⟨lhs.x - rhs.x, lhs.y - rhs.y⟩

/-- Vector-scalar `operator*` for `Vec2` (lines 382-383), elementwise. -/
def Vec2.mulS {α : Type} [Mul α] (lhs : Vec2 α) (rhs : α) : Vec2 α :=
  ⟨lhs.x * rhs, lhs.y * rhs⟩

/-- Vector-scalar `operator/` for `Vec2` (lines 384-385), elementwise. -/
def Vec2.divS {α : Type} [Div α] (lhs : Vec2 α) (rhs : α) : Vec2 α :=
  ⟨lhs.x / rhs, lhs.y / rhs⟩

/-- Vector-vector `operator+` for `Vec3` (lines 474-475), elementwise. -/
def Vec3.addV {α : Type} [Add α] (lhs rhs : Vec3 α) : Vec3 α :=
  ⟨lhs.x + rhs.x, lhs.y + rhs.y, lhs.z + rhs.z⟩

/-- Vector-vector `operator-` for `Vec3` (lines 476-477), elementwise. -/
def Vec3.subV {α : Type} [Sub α] (lhs rhs : Vec3 α) : Vec3 α :=
  ⟨lhs.x - rhs.x, lhs.y - rhs.y, lhs.z - rhs.z⟩

/-- Vector-scalar `operator/` for `Vec3` (lines 471-472), elementwise. -/
def Vec3.divS {α : Type} [Div α] (lhs : Vec3 α) (rhs : α) : Vec3 α :=
  ⟨lhs.x / rhs, lhs.y / rhs, lhs.z / rhs⟩

/-- Vector-vector `operator+` for `Vec4` (lines 562-563), elementwise. -/
def Vec4.addV {α : Type} [Add α] (lhs rhs : Vec4 α) : Vec4 α :=
  ⟨lhs.x + rhs.x, lhs.y + rhs.y, lhs.z + rhs.z, lhs.w + rhs.w⟩

/-- Vector-vector `operator-` for `Vec4` (lines 564-565), elementwise. -/
def Vec4.subV {α : Type} [Sub α] (lhs rhs : Vec4 α) : Vec4 α :=
  ⟨lhs.x - rhs.x, lhs.y - rhs.y, lhs.z - rhs.z, lhs.w - rhs.w⟩

/-- Vector-scalar `operator/` for `Vec4` (lines 559-560), elementwise. -/
def Vec4.divS {α : Type} [Div α] (lhs : Vec4 α) (rhs : α) : Vec4 α :=
  ⟨lhs.x / rhs, lhs.y / rhs, lhs.z / rhs, lhs.w / rhs⟩

/-- `Vec2::operator==` (line 361): elementwise equality. -/
def Vec2.eqOp {α : Type} (u v : Vec2 α) : Prop := u.x = v.x ∧ u.y = v.y

/-- `Vec2::operator!=` (line 362): elementwise disequality (any component). -/
def Vec2.neOp {α : Type} (u v : Vec2 α) : Prop := u.x ≠ v.x ∨ u.y ≠ v.y

/-- `Vec2::operator>` (line 363): `MagSq() > v.MagSq()`. -/
def Vec2.gtOp {α : Type} [Add α] [Mul α] [LT α] (u v : Vec2 α) : Prop :=
  u.MagSq > v.MagSq

/-- `Vec2::operator>=` (line 364): `MagSq() >= v.MagSq()`. -/
def Vec2.geOp {α : Type} [Add α] [Mul α] [LE α] (u v : Vec2 α) : Prop :=
  u.MagSq ≥ v.MagSq

/-- `Vec2::operator<` (line 365): `MagSq() < v.MagSq()`. -/
def Vec2.ltOp {α : Type} [Add α] [Mul α] [LT α] (u v : Vec2 α) : Prop :=
  u.MagSq < v.MagSq

/-- `Vec2::operator<=` (line 366): `MagSq() <= v.MagSq()`. -/
def Vec2.leOp {α : Type} [Add α] [Mul α] [LE α] (u v : Vec2 α) : Prop :=
  u.MagSq ≤ v.MagSq

/-- `Vec3::operator==` (line 447): elementwise equality. -/
def Vec3.eqOp {α : Type} (u v : Vec3 α) : Prop := u.x = v.x ∧ u.y = v.y ∧ u.z = v.z

/-- `Vec3::operator!=` (line 448): elementwise disequality (any component). -/
def Vec3.neOp {α : Type} (u v : Vec3 α) : Prop := u.x ≠ v.x ∨ u.y ≠ v.y ∨ u.z ≠ v.z

/-- `Vec3::operator>` (line 449): `MagSq() > v.MagSq()`. -/
def Vec3.gtOp {α : Type} [Add α] [Mul α] [LT α] (u v : Vec3 α) : Prop :=
  u.MagSq > v.MagSq

/-- `Vec3::operator>=` (line 450): `MagSq() >= v.MagSq()`. -/
def Vec3.geOp {α : Type} [Add α] [Mul α] [LE α] (u v : Vec3 α) : Prop :=
  u.MagSq ≥ v.MagSq

/-- `Vec3::operator<` (line 451): `MagSq() < v.MagSq()`. -/
def Vec3.ltOp {α : Type} [Add α] [Mul α] [LT α] (u v : Vec3 α) : Prop :=
  u.MagSq < v.MagSq

/-- `Vec3::operator<=` (line 452): `MagSq() <= v.MagSq()`. -/
def Vec3.leOp {α : Type} [Add α] [Mul α] [LE α] (u v : Vec3 α) : Prop :=
  u.MagSq ≤ v.MagSq

/-- `Vec2::operator[]` (lines 368-376): indices 0 and 1 return `x` and `y`;
any other index throws `std::out_of_range` with the quoted message. -/
def Vec2.getIdx {α : Type} (v : Vec2 α) (i : Nat) : Except String α :=
  match i with
  | 0 => .ok v.x
  | 1 => .ok v.y
  | _ => .error "Index out of range. Allowed indices for Vec2: 0, 1."

/-- `Vec3::operator[]` (lines 454-463): indices 0, 1, 2 return `x`, `y`, `z`;
any other index throws `std::out_of_range` with the quoted message. -/
def Vec3.getIdx {α : Type} (v : Vec3 α) (i : Nat) : Except String α :=
  match i with
  | 0 => .ok v.x
  | 1 => .ok v.y
  | 2 => .ok v.z
  | _ => .error "Index out of range. Allowed indices for Vec3: 0, 1, 2."

/-- `Vec4::operator[]` (lines 541-551): indices 0, 1, 2, 3 return `x`, `y`,
`z`, `w`; any other index throws `std::out_of_range` with the quoted
message. -/
def Vec4.getIdx {α : Type} (v : Vec4 α) (i : Nat) : Except String α :=
  match i with
  | 0 => .ok v.x
  | 1 => .ok v.y
  | 2 => .ok v.z
  | 3 => .ok v.w
  | _ => .error "Index out of range. Allowed indices for Vec4: 0, 1, 2, 3."

/-- `Vec2::Mag` (line 326): `std::sqrt(MagSq())`. -/
noncomputable def Vec2.Mag (v : Vec2 ℝ) : ℝ := Real.sqrt v.MagSq

/-- `Vec3::Mag` (line 423): `std::sqrt(MagSq())`. -/
noncomputable def Vec3.Mag (v : Vec3 ℝ) : ℝ := Real.sqrt v.MagSq

/-- `Vec4::Mag` (line 510): `std::sqrt(MagSq())`. -/
noncomputable def Vec4.Mag (v : Vec4 ℝ) : ℝ := Real.sqrt v.MagSq

/-- `Vec2::Normalize` (line 332):
`double mag = Mag(); return (mag == 0) ? Vec2<double>(x, y) : *this / mag;`.
The division is the elementwise vector-scalar `operator/`. -/
noncomputable def Vec2.Normalize (v : Vec2 ℝ) : Vec2 ℝ :=
  if v.Mag = 0 then ⟨v.x, v.y⟩ else v.divS v.Mag

/-- `Vec3::Normalize` (line 429):
`double mag = Mag(); return (mag == 0) ? Vec3<double>(x, y, z) : *this / mag;`. -/
noncomputable def Vec3.Normalize (v : Vec3 ℝ) : Vec3 ℝ :=
  if v.Mag = 0 then ⟨v.x, v.y, v.z⟩ else v.divS v.Mag

/-- `Vec4::Normalize` (line 516):
`double mag = Mag(); return (mag == 0) ? Vec4<double>(x, y, z, w) : *this / mag;`. -/
noncomputable def Vec4.Normalize (v : Vec4 ℝ) : Vec4 ℝ :=
  if v.Mag = 0 then ⟨v.x, v.y, v.z, v.w⟩ else v.divS v.Mag

/-- `DistanceSq(Vec2, Vec2)` (lines 671-675):
`Sqr(p2.x - p1.x) + Sqr(p2.y - p1.y)`. -/
noncomputable def DistanceSq (p1 p2 : Vec2 ℝ) : ℝ := Sqr (p2.x - p1.x) + Sqr (p2.y - p1.y)

/-- `Distance(Vec2, Vec2)` (line 679): `std::sqrt(DistanceSq(p1, p2))`. -/
noncomputable def Distance (p1 p2 : Vec2 ℝ) : ℝ := Real.sqrt (DistanceSq p1 p2)

/-- `Avg(Vec2, Vec2)` (line 668): `(v1 + v2) * 0.5`, via vector addition and
scalar multiplication. -/
noncomputable def AvgV (v1 v2 : Vec2 ℝ) : Vec2 ℝ := (v1.addV v2).mulS 0.5

/-- `Segment2<T>` (lines 582-627): two endpoints `a`, `b`, each a `Vec2<T>`. -/
structure Segment2 (α : Type) where
  a : Vec2 α
  b : Vec2 α

/-- `Segment2::Len` (line 593): `Distance(a, b)`. -/
noncomputable def Segment2.Len (s : Segment2 ℝ) : ℝ := Distance s.a s.b

/-- `Segment2::LenSq` (line 594): `DistanceSq(a, b)`. -/
noncomputable def Segment2.LenSq (s : Segment2 ℝ) : ℝ := DistanceSq s.a s.b

/-- `Segment2::CenterA` (line 596): `Avg(a.x, a.y)`. -/
noncomputable def Segment2.CenterA (s : Segment2 ℝ) : ℝ := Avg s.a.x s.a.y

/-- `Segment2::CenterB` (line 597): `Avg(b.x, b.y)`. -/
noncomputable def Segment2.CenterB (s : Segment2 ℝ) : ℝ := Avg s.b.x s.b.y

/-- `Segment2::Center` (line 598): `Avg(a, b)` (the two-vector overload). -/
noncomputable def Segment2.Center (s : Segment2 ℝ) : Vec2 ℝ := AvgV s.a s.b

/-- `Segment2::Delta` (line 600): `b - a` (vector subtraction). -/
noncomputable def Segment2.Delta (s : Segment2 ℝ) : Vec2 ℝ := s.b.subV s.a

/-- `Segment2::DeltaX` (line 601): `b.x - a.x`. -/
noncomputable def Segment2.DeltaX (s : Segment2 ℝ) : ℝ := s.b.x - s.a.x

/-- `Segment2::DeltaY` (line 602): `b.y - a.y`. -/
noncomputable def Segment2.DeltaY (s : Segment2 ℝ) : ℝ := s.b.y - s.a.y

/-- `Distance(Segment2, Vec2)` (lines 681-688): the implicit-line formula
`a = s.a.y - s.b.y`, `b = s.b.x - s.a.x`, `c = s.a.x * s.b.y - s.b.x * s.a.y`,
returning `|a * p.x + b * p.y + c| / sqrt(Sqr(a) + Sqr(b))`. -/
noncomputable def DistanceSeg (s : Segment2 ℝ) (p : Vec2 ℝ) : ℝ :=
  let a := s.a.y - s.b.y
  let b := s.b.x - s.a.x
  let c := s.a.x * s.b.y - s.b.x * s.a.y
  |a * p.x + b * p.y + c| / Real.sqrt (Sqr a + Sqr b)

/-- Element types that can instantiate the templates; enough to express the
claims about 32/64-bit integers and 64-bit floats (plus `f32`/`u32`/`u64`
for width/signedness comparisons). -/
inductive ScalarTy : Type
  | i32
  | i64
  | u32
  | u64
  | f32
  | f64
deriving DecidableEq

/-- Byte width of each element type (`sizeof`). -/
def ScalarTy.width : ScalarTy → Nat
  | .i32 => 4
  | .i64 => 8
  | .u32 => 4
  | .u64 => 8
  | .f32 => 4
  | .f64 => 8

/-- Whether the element type is a floating-point type. -/
def ScalarTy.isFloat : ScalarTy → Bool
  | .f32 => true
  | .f64 => true
  | _ => false

/-- Result element type of the vector-vector operators in the source: the
friend templates `Vec2<C> operator+(const Vec2<T>& lhs, const Vec2<C>& rhs)`
(lines 389-396, likewise Vec3 lines 474-481 and Vec4 lines 562-569) always
return `Vec2<C>`, i.e. the right-hand operand's element type. -/
def vecVecResultTy (_T C : ScalarTy) : ScalarTy := C

/-- Result element type of the vector-scalar operators in the source:
`Vec<C, size> Vec<T, size>::operator+(const C& rhs)` (lines 218-245) and the
friend `Vec2<C> operator+(const Vec2<T>&, const C&)` (lines 378-385) return
a vector of the scalar's type `C`. -/
def vecScalarResultTy (_T C : ScalarTy) : ScalarTy := C

/-- Promotion Rule as the spec states it (spec section 4.1), for comparison
with the source's behaviour: same type keeps it; exactly one floating-point
type wins; otherwise the larger width wins; on equal width the left type is
kept. -/
def specPromote (T C : ScalarTy) : ScalarTy :=
  if T = C then T
  else if C.isFloat ∧ ¬T.isFloat then C
  else if T.isFloat ∧ ¬C.isFloat then T
  else if T.width < C.width then C
  else T

/-- Truncation toward zero of an idealised value, modelling C++
`static_cast` from a floating-point value to an integer type. -/
def ratTrunc (q : ℚ) : ℚ :=
  if q < 0 then -((⌊-q⌋ : ℤ) : ℚ) else ((⌊q⌋ : ℤ) : ℚ)

/-- Conversion of an idealised value to an element type: floating-point
targets keep the value, integer targets truncate toward zero (overflow is
not modelled; the claims use in-range values). -/
def ScalarTy.castTo (t : ScalarTy) (q : ℚ) : ℚ :=
  if t.isFloat then q else ratTrunc q

/-- Value level of `Vec2<C> operator+(const Vec2<T>& lhs, const Vec2<C>& rhs)`
(lines 389-390): each component is computed exactly and then converted to the
result element type `C` by `Vec2<C>`'s constructor. `tyR` is `C`, the type of
the right operand and of the result; `tyL` only names the left operand's type. -/
def vec2AddVal (_tyL tyR : ScalarTy) (lhs rhs : Vec2 ℚ) : Vec2 ℚ :=
  ⟨tyR.castTo (lhs.x + rhs.x), tyR.castTo (lhs.y + rhs.y)⟩

/-- `Vec<T, size>` element storage (lines 177-180) as a function vector;
`Vec<T,size>::operator+(const Vec<C, size2>& rhs)` (lines 254-277): when
`size2 > size` the result starts as the cast of `rhs` and the first `size`
components get `lhs` added; otherwise the result starts as the cast of `lhs`
and the first `size2` components get `rhs` added. The result length is
`max size size2` (namely `size2` in the first branch, `size` in the second). -/
def mixedAdd {α : Type} [Add α] {n1 n2 : Nat} (lhs : Fin n1 → α) (rhs : Fin n2 → α) :
    Fin (max n1 n2) → α := fun j =>
  if h : n1 < n2 then
    if hj : j.val < n1 then
      rhs ⟨j.val, lt_of_lt_of_le j.isLt (max_le (le_of_lt h) le_rfl)⟩ + lhs ⟨j.val, hj⟩
    else
      rhs ⟨j.val, lt_of_lt_of_le j.isLt (max_le (le_of_lt h) le_rfl)⟩
  else
    if hj : j.val < n2 then
      lhs ⟨j.val, lt_of_lt_of_le j.isLt (max_le le_rfl (le_of_not_lt h))⟩ + rhs ⟨j.val, hj⟩
    else
      lhs ⟨j.val, lt_of_lt_of_le j.isLt (max_le le_rfl (le_of_not_lt h))⟩

/-- Modelled from the spec: spec section 4.2 describes mixed-length
subtract/multiply/divide with the same broadcast-by-truncation policy as
addition, but only `operator+` is present in the provided header (lines
254-277). This combinator follows the structure of `mixedAdd` with the
operator abstracted; the element carried from the longer operand is the left
argument of `op`, as in the source's compound assignment `out.elems[i] ⊕= ...`. -/
def mixedCombine {α : Type} (op : α → α → α) {n1 n2 : Nat}
    (lhs : Fin n1 → α) (rhs : Fin n2 → α) : Fin (max n1 n2) → α := fun j =>
  if h : n1 < n2 then
    if hj : j.val < n1 then
      op (rhs ⟨j.val, lt_of_lt_of_le j.isLt (max_le (le_of_lt h) le_rfl)⟩) (lhs ⟨j.val, hj⟩)
    else
      rhs ⟨j.val, lt_of_lt_of_le j.isLt (max_le (le_of_lt h) le_rfl)⟩
  else
    if hj : j.val < n2 then
      op (lhs ⟨j.val, lt_of_lt_of_le j.isLt (max_le le_rfl (le_of_not_lt h))⟩) (rhs ⟨j.val, hj⟩)
    else
      lhs ⟨j.val, lt_of_lt_of_le j.isLt (max_le le_rfl (le_of_not_lt h))⟩

/-- `Vec<T,size>::Dot` (lines 201-206): sum of componentwise products. -/
def dotFin {n : Nat} (u v : Fin n → ℚ) : ℚ := ∑ j, u j * v j

/-- Modelled from the spec: the `Matrix2` matrix-vector product (spec section
4.4); `Matrix2` itself is only present as commented-out code (Math.h lines
630-649). A matrix of `r` rows and `c` columns is a function of row and
column index, and the product with a length-`c` vector has length `r`, its
`i`-th component the dot product of row `i` with the vector. -/
def matVecMul {r c : Nat} (m : Fin r → Fin c → ℚ) (v : Fin c → ℚ) : Fin r → ℚ :=
  fun i => dotFin (m i) v

/-- Modelled from the spec: the 2-by-2 identity matrix, one of the named
factories of spec section 3 (scale by the multiplicative identity). -/
def identity2 : Fin 2 → Fin 2 → ℚ := fun i j => if i = j then 1 else 0

/-- C++ list-initialisation `Vec3<T>{...}` resolved against `Vec3`'s
constructors (lines 411-414): a one-element list uses the fill constructor
`Vec3(T v)`, a three-element list uses `Vec3(T x, T y, T z)`; for any other
argument count there is no viable constructor (the class is not an aggregate,
its constructors are user-provided), so the initialisation is ill-formed,
modelled as `none`. -/
def vec3ListInit : List ℚ → Option (Vec3 ℚ)
  | [v] => some ⟨v, v, v⟩
  | [x, y, z] => some ⟨x, y, z⟩
  | _ => none

/-- C++ list-initialisation `Vec4<T>{...}` resolved against `Vec4`'s
constructors (lines 498-501): a one-element list uses the fill constructor,
a four-element list uses `Vec4(T x, T y, T z, T w)`; any other argument
count has no viable constructor, modelled as `none`. -/
def vec4ListInit : List ℚ → Option (Vec4 ℚ)
  | [v] => some ⟨v, v, v, v⟩
  | [x, y, z, w] => some ⟨x, y, z, w⟩
  | _ => none

/-- `Vec3<T>::operator Vec3<NT>()` (lines 434-435):
`return Vec3<NT>{(NT)x, (NT)y};` — it list-initialises the target from only
the two converted components `x` and `y`; `cast` models `(NT)`. -/
def vec3ConvOp (cast : ℚ → ℚ) (v : Vec3 ℚ) : Option (Vec3 ℚ) :=
  vec3ListInit [cast v.x, cast v.y]

/-- `Vec4<T>::operator Vec4<NT>()` (lines 521-522):
`return Vec4<NT>{(NT)x, (NT)y};` — it list-initialises the target from only
the two converted components `x` and `y`; `cast` models `(NT)`. -/
def vec4ConvOp (cast : ℚ → ℚ) (v : Vec4 ℚ) : Option (Vec4 ℚ) :=
  vec4ListInit [cast v.x, cast v.y]

/-- C2 counterexample: combining a 64-bit float vector (left) with a 32-bit
integer vector (right) yields a 32-bit integer result, not a 64-bit float
one, contradicting "always yields a 64-bit float result regardless of
operand order"; at the value level, adding the f64 vector (1/2, 1/2) to the
i32 vector (1, 1) produces the truncated i32 vector (1, 1). The spec's own
Promotion Rule would have chosen f64 here. -/
theorem C2_promotion_counterexample :
    vecVecResultTy ScalarTy.f64 ScalarTy.i32 = ScalarTy.i32
    ∧ vecVecResultTy ScalarTy.f64 ScalarTy.i32 ≠ ScalarTy.f64
    ∧ specPromote ScalarTy.f64 ScalarTy.i32 = ScalarTy.f64
    ∧ vec2AddVal ScalarTy.f64 ScalarTy.i32 ⟨1/2, 1/2⟩ ⟨1, 1⟩ = ⟨1, 1⟩ := by
  refine ⟨rfl, by decide, by decide, ?_⟩
  norm_num [vec2AddVal, ScalarTy.castTo, ScalarTy.isFloat, ratTrunc]

/-- C2 amended: the result element type of every binary arithmetic operation
between two vectors (and between a vector and a scalar) is the right-hand
operand's element type `C`, independently of any promotion rule. Hence an
int32 vector combined with an f64 vector on the right yields f64, two
same-type vectors yield that type, and int32 combined with int64 yields
int64 only when int64 is the right operand (int64 with int32 on the right
yields int32). -/
theorem C2_result_type_is_rhs :
    (∀ T C : ScalarTy, vecVecResultTy T C = C ∧ vecScalarResultTy T C = C)
    ∧ vecVecResultTy ScalarTy.i32 ScalarTy.f64 = ScalarTy.f64
    ∧ (∀ T : ScalarTy, vecVecResultTy T T = T)
    ∧ vecVecResultTy ScalarTy.i32 ScalarTy.i64 = ScalarTy.i64
    ∧ vecVecResultTy ScalarTy.i64 ScalarTy.i32 = ScalarTy.i32 :=
  ⟨fun _ _ => ⟨rfl, rfl⟩, rfl, fun _ => rfl, rfl, rfl⟩

/-- C4: indexed access on the fixed-arity vectors succeeds exactly for
indices below the length, and every out-of-range index yields the signalled
out-of-range error whose message describes the valid index range; in
particular index 2 on a length-2 vector errors while 0 and 1 succeed. -/
theorem C4_index_bounds :
    (∀ (v : Vec2 ℚ) (i : Nat), (∃ e, v.getIdx i = Except.ok e) ↔ i < 2)
    ∧ (∀ (v : Vec2 ℚ) (i : Nat), 2 ≤ i →
        v.getIdx i = Except.error "Index out of range. Allowed indices for Vec2: 0, 1.")
    ∧ (∀ v : Vec2 ℚ, v.getIdx 0 = Except.ok v.x ∧ v.getIdx 1 = Except.ok v.y)
    ∧ (∀ (v : Vec3 ℚ) (i : Nat), (∃ e, v.getIdx i = Except.ok e) ↔ i < 3)
    ∧ (∀ (v : Vec3 ℚ) (i : Nat), 3 ≤ i →
        v.getIdx i = Except.error "Index out of range. Allowed indices for Vec3: 0, 1, 2.")
    ∧ (∀ (v : Vec4 ℚ) (i : Nat), (∃ e, v.getIdx i = Except.ok e) ↔ i < 4)
    ∧ (∀ (v : Vec4 ℚ) (i : Nat), 4 ≤ i →
        v.getIdx i = Except.error "Index out of range. Allowed indices for Vec4: 0, 1, 2, 3.") := by
  refine ⟨?_, ?_, ?_, ?_, ?_, ?_, ?_⟩
  · rintro v (_ | _ | i) <;> simp [Vec2.getIdx]
  · rintro v (_ | _ | i) h <;> first | omega | simp [Vec2.getIdx]
  · exact fun v => ⟨rfl, rfl⟩
  · rintro v (_ | _ | _ | i) <;> simp [Vec3.getIdx]
  · rintro v (_ | _ | _ | i) h <;> first | omega | simp [Vec3.getIdx]
  · rintro v (_ | _ | _ | _ | i) <;> simp [Vec4.getIdx]
  · rintro v (_ | _ | _ | _ | i) h <;> first | omega | simp [Vec4.getIdx]

/-- C4 witness: at the length-2 vector (5, 7), index 2 yields the signalled
error, indices 0 and 1 succeed; similarly at the first out-of-range index
for lengths 3 and 4. -/
theorem C4_index_bounds_witness :
    (2 : Nat) ≤ 2
    ∧ Vec2.getIdx (⟨5, 7⟩ : Vec2 ℚ) 2 =
        Except.error "Index out of range. Allowed indices for Vec2: 0, 1."
    ∧ Vec2.getIdx (⟨5, 7⟩ : Vec2 ℚ) 0 = Except.ok 5
    ∧ Vec2.getIdx (⟨5, 7⟩ : Vec2 ℚ) 1 = Except.ok 7
    ∧ (3 : Nat) ≤ 3
    ∧ Vec3.getIdx (⟨1, 2, 3⟩ : Vec3 ℚ) 3 =
        Except.error "Index out of range. Allowed indices for Vec3: 0, 1, 2."
    ∧ (4 : Nat) ≤ 4
    ∧ Vec4.getIdx (⟨1, 2, 3, 4⟩ : Vec4 ℚ) 4 =
        Except.error "Index out of range. Allowed indices for Vec4: 0, 1, 2, 3." :=
  ⟨le_rfl,
   C4_index_bounds.2.1 ⟨5, 7⟩ 2 le_rfl,
   (C4_index_bounds.2.2.1 ⟨5, 7⟩).1,
   (C4_index_bounds.2.2.1 ⟨5, 7⟩).2,
   le_rfl,
   C4_index_bounds.2.2.2.2.1 ⟨1, 2, 3⟩ 3 le_rfl,
   le_rfl,
   C4_index_bounds.2.2.2.2.2.2 ⟨1, 2, 3, 4⟩ 4 le_rfl⟩

/-- C5: the matrix-vector product (spec-modelled; `Matrix2` is commented out
in the header) maps an r-by-c matrix and a length-c vector to the length-r
vector of row-with-vector dot products; the 2-by-2 identity matrix times any
length-2 vector is that vector unchanged. -/
theorem C5_matrix_vector_product :
    (∀ (r c : Nat) (m : Fin r → Fin c → ℚ) (v : Fin c → ℚ) (i : Fin r),
      matVecMul m v i = dotFin (m i) v)
    ∧ (∀ v : Fin 2 → ℚ, matVecMul identity2 v = v) := by
  refine ⟨fun r c m v i => rfl, fun v => ?_⟩
  funext i
  fin_cases i <;> simp [matVecMul, identity2, dotFin, Fin.sum_univ_two]

/-- C7: the ordering comparisons on same-length same-type vectors hold
exactly when the corresponding comparison holds between the squared
magnitudes, while equality and disequality are elementwise; the ordering is
not lexicographic: (2, 0) is strictly less than (1, 10) by magnitude even
though its first element is larger. -/
theorem C7_ordering_by_magnitude :
    (∀ u v : Vec2 ℚ,
      (u.ltOp v ↔ u.MagSq < v.MagSq) ∧ (u.leOp v ↔ u.MagSq ≤ v.MagSq)
      ∧ (u.gtOp v ↔ v.MagSq < u.MagSq) ∧ (u.geOp v ↔ v.MagSq ≤ u.MagSq)
      ∧ (u.eqOp v ↔ u = v) ∧ (u.neOp v ↔ u ≠ v))
    ∧ (∀ u v : Vec3 ℚ,
      (u.ltOp v ↔ u.MagSq < v.MagSq) ∧ (u.leOp v ↔ u.MagSq ≤ v.MagSq)
      ∧ (u.gtOp v ↔ v.MagSq < u.MagSq) ∧ (u.geOp v ↔ v.MagSq ≤ u.MagSq)
      ∧ (u.eqOp v ↔ u = v) ∧ (u.neOp v ↔ u ≠ v))
    ∧ Vec2.ltOp (⟨2, 0⟩ : Vec2 ℚ) ⟨1, 10⟩ ∧ (1 : ℚ) < 2 := by
  refine ⟨?_, ?_, by norm_num [Vec2.ltOp, Vec2.MagSq], by norm_num⟩
  · intro u v
    cases u; cases v
    simp only [Vec2.ltOp, Vec2.leOp, Vec2.gtOp, Vec2.geOp, Vec2.eqOp, Vec2.neOp,
      Vec2.mk.injEq, ge_iff_le, gt_iff_lt, ne_eq, not_and_or]
    tauto
  · intro u v
    cases u; cases v
    simp only [Vec3.ltOp, Vec3.leOp, Vec3.gtOp, Vec3.geOp, Vec3.eqOp, Vec3.neOp,
      Vec3.mk.injEq, ge_iff_le, gt_iff_lt, ne_eq, not_and_or]
    tauto

/-- C9: for all same-length same-type vectors `a` and `b`, `(a + b) - b = a`
elementwise; exact in the idealised model, both for integer element types
(over `ℤ`) and floating-point element types (over `ℝ`), for lengths 2, 3
and 4. -/
theorem C9_add_sub_cancel :
    (∀ a b : Vec2 ℤ, (a.addV b).subV b = a) ∧ (∀ a b : Vec2 ℝ, (a.addV b).subV b = a)
    ∧ (∀ a b : Vec3 ℤ, (a.addV b).subV b = a) ∧ (∀ a b : Vec3 ℝ, (a.addV b).subV b = a)
    ∧ (∀ a b : Vec4 ℤ, (a.addV b).subV b = a) ∧ (∀ a b : Vec4 ℝ, (a.addV b).subV b = a) := by
  refine ⟨?_, ?_, ?_, ?_, ?_, ?_⟩ <;> intro a b <;> cases a <;> cases b <;>
    simp [Vec2.addV, Vec2.subV, Vec3.addV, Vec3.subV, Vec4.addV, Vec4.subV,
      add_sub_cancel_right]

/-- C10 counterexample: converting the concrete length-3 vector (1, 2, 3)
(with identity component cast) does not produce the vector (1, 2, 0) with z
zeroed — list-initialisation from the two supplied components has no viable
`Vec3` constructor, so the conversion produces no vector at all. -/
theorem C10_conversion_counterexample :
    vec3ConvOp id ⟨1, 2, 3⟩ = none ∧ vec3ConvOp id ⟨1, 2, 3⟩ ≠ some ⟨1, 2, 0⟩ := by
  exact ⟨rfl, by decide⟩

/-- C10 amended: the `Vec3` (resp. `Vec4`) element-type conversion operator
passes only the two converted components `x` and `y` to list-initialisation
of the target type, which has no two-argument constructor; the conversion is
therefore ill-formed (rejected when instantiated) and never produces a
vector, so cross-type conversion of a 3- or 4-element vector does not
preserve the element values — it produces no value at all. -/
theorem C10_conversion_ill_formed :
    (∀ (nt : ℚ → ℚ) (v : Vec3 ℚ), vec3ConvOp nt v = none)
    ∧ (∀ (nt : ℚ → ℚ) (v : Vec4 ℚ), vec4ConvOp nt v = none) :=
  ⟨fun _ _ => rfl, fun _ _ => rfl⟩

/-- A vanishing sum of two real self-products forces both factors to vanish. -/
theorem self_mul_add_self_mul_eq_zero {x y : ℝ} (h : x * x + y * y = 0) :
    x = 0 ∧ y = 0 := by
  have hx : x * x = 0 :=
    le_antisymm (by linarith [mul_self_nonneg y]) (mul_self_nonneg x)
  have hy : y * y = 0 :=
    le_antisymm (by linarith [mul_self_nonneg x]) (mul_self_nonneg y)
  exact ⟨mul_self_eq_zero.mp hx, mul_self_eq_zero.mp hy⟩

/-- C3: for every vector of length 2, 3 or 4 with magnitude exactly zero,
`Normalize` returns the vector unchanged (as a floating-point vector), and
all its elements are zero — no division by zero happens; for nonzero
magnitude, `Normalize` divides each element by the magnitude. -/
theorem C3_normalize_zero_safe :
    (∀ v : Vec2 ℝ, v.Mag = 0 → v.Normalize = v ∧ v.x = 0 ∧ v.y = 0)
    ∧ (∀ v : Vec2 ℝ, v.Mag ≠ 0 → v.Normalize = ⟨v.x / v.Mag, v.y / v.Mag⟩)
    ∧ (∀ v : Vec3 ℝ, v.Mag = 0 → v.Normalize = v ∧ v.x = 0 ∧ v.y = 0 ∧ v.z = 0)
    ∧ (∀ v : Vec3 ℝ, v.Mag ≠ 0 →
        v.Normalize = ⟨v.x / v.Mag, v.y / v.Mag, v.z / v.Mag⟩)
    ∧ (∀ v : Vec4 ℝ, v.Mag = 0 →
        v.Normalize = v ∧ v.x = 0 ∧ v.y = 0 ∧ v.z = 0 ∧ v.w = 0)
    ∧ (∀ v : Vec4 ℝ, v.Mag ≠ 0 →
        v.Normalize = ⟨v.x / v.Mag, v.y / v.Mag, v.z / v.Mag, v.w / v.Mag⟩) := by
  refine ⟨?_, ?_, ?_, ?_, ?_, ?_⟩
  · intro v h
    have h0 : v.MagSq = 0 :=
      le_antisymm (Real.sqrt_eq_zero'.mp h)
        (add_nonneg (mul_self_nonneg v.x) (mul_self_nonneg v.y))
    obtain ⟨hx, hy⟩ := self_mul_add_self_mul_eq_zero h0
    exact ⟨by simp [Vec2.Normalize, h], hx, hy⟩
  · intro v h
    simp [Vec2.Normalize, h, Vec2.divS]
  · intro v h
    have h0 : v.MagSq = 0 :=
      le_antisymm (Real.sqrt_eq_zero'.mp h)
        (add_nonneg (add_nonneg (mul_self_nonneg v.x) (mul_self_nonneg v.y))
          (mul_self_nonneg v.z))
    have hmag : v.x * v.x + v.y * v.y + v.z * v.z = 0 := h0
    have hx : v.x = 0 := mul_self_eq_zero.mp (le_antisymm
      (by nlinarith [mul_self_nonneg v.y, mul_self_nonneg v.z]) (mul_self_nonneg v.x))
    have hy : v.y = 0 := mul_self_eq_zero.mp (le_antisymm
      (by nlinarith [mul_self_nonneg v.x, mul_self_nonneg v.z]) (mul_self_nonneg v.y))
    have hz : v.z = 0 := mul_self_eq_zero.mp (le_antisymm
      (by nlinarith [mul_self_nonneg v.x, mul_self_nonneg v.y]) (mul_self_nonneg v.z))
    exact ⟨by simp [Vec3.Normalize, h], hx, hy, hz⟩
  · intro v h
    simp [Vec3.Normalize, h, Vec3.divS]
  · intro v h
    have h0 : v.MagSq = 0 :=
      le_antisymm (Real.sqrt_eq_zero'.mp h)
        (add_nonneg (add_nonneg (add_nonneg (mul_self_nonneg v.x) (mul_self_nonneg v.y))
          (mul_self_nonneg v.z)) (mul_self_nonneg v.w))
    have hmag : v.x * v.x + v.y * v.y + v.z * v.z + v.w * v.w = 0 := h0
    have hx : v.x = 0 := mul_self_eq_zero.mp (le_antisymm
      (by nlinarith [mul_self_nonneg v.y, mul_self_nonneg v.z, mul_self_nonneg v.w])
      (mul_self_nonneg v.x))
    have hy : v.y = 0 := mul_self_eq_zero.mp (le_antisymm
      (by nlinarith [mul_self_nonneg v.x, mul_self_nonneg v.z, mul_self_nonneg v.w])
      (mul_self_nonneg v.y))
    have hz : v.z = 0 := mul_self_eq_zero.mp (le_antisymm
      (by nlinarith [mul_self_nonneg v.x, mul_self_nonneg v.y, mul_self_nonneg v.w])
      (mul_self_nonneg v.z))
    have hw : v.w = 0 := mul_self_eq_zero.mp (le_antisymm
      (by nlinarith [mul_self_nonneg v.x, mul_self_nonneg v.y, mul_self_nonneg v.z])
      (mul_self_nonneg v.w))
    exact ⟨by simp [Vec4.Normalize, h], hx, hy, hz, hw⟩
  · intro v h
    simp [Vec4.Normalize, h, Vec4.divS]

/-- C3 witness: the zero vectors of lengths 2, 3, 4 have magnitude zero and
normalise to themselves; the vectors (3, 4), (0, 3, 4) and (0, 0, 3, 4) have
nonzero magnitude and normalise to the elementwise division by it. -/
theorem C3_normalize_zero_safe_witness :
    Vec2.Mag ⟨0, 0⟩ = 0 ∧ Vec2.Normalize (⟨0, 0⟩ : Vec2 ℝ) = ⟨0, 0⟩
    ∧ Vec2.Mag (⟨3, 4⟩ : Vec2 ℝ) ≠ 0
    ∧ Vec2.Normalize (⟨3, 4⟩ : Vec2 ℝ)
        = ⟨3 / Vec2.Mag ⟨3, 4⟩, 4 / Vec2.Mag ⟨3, 4⟩⟩
    ∧ Vec3.Mag ⟨0, 0, 0⟩ = 0 ∧ Vec3.Normalize (⟨0, 0, 0⟩ : Vec3 ℝ) = ⟨0, 0, 0⟩
    ∧ Vec3.Mag (⟨0, 3, 4⟩ : Vec3 ℝ) ≠ 0
    ∧ Vec3.Normalize (⟨0, 3, 4⟩ : Vec3 ℝ)
        = ⟨0 / Vec3.Mag ⟨0, 3, 4⟩, 3 / Vec3.Mag ⟨0, 3, 4⟩, 4 / Vec3.Mag ⟨0, 3, 4⟩⟩
    ∧ Vec4.Mag ⟨0, 0, 0, 0⟩ = 0
    ∧ Vec4.Normalize (⟨0, 0, 0, 0⟩ : Vec4 ℝ) = ⟨0, 0, 0, 0⟩
    ∧ Vec4.Mag (⟨0, 0, 3, 4⟩ : Vec4 ℝ) ≠ 0
    ∧ Vec4.Normalize (⟨0, 0, 3, 4⟩ : Vec4 ℝ)
        = ⟨0 / Vec4.Mag ⟨0, 0, 3, 4⟩, 0 / Vec4.Mag ⟨0, 0, 3, 4⟩,
           3 / Vec4.Mag ⟨0, 0, 3, 4⟩, 4 / Vec4.Mag ⟨0, 0, 3, 4⟩⟩ := by
  have h2z : Vec2.Mag ⟨0, 0⟩ = 0 := by
    simp [Vec2.Mag, Vec2.MagSq]
  have h2n : Vec2.Mag (⟨3, 4⟩ : Vec2 ℝ) ≠ 0 := by
    have : (0 : ℝ) < Vec2.Mag ⟨3, 4⟩ := by
      rw [Vec2.Mag]
      exact Real.sqrt_pos.mpr (by norm_num [Vec2.MagSq])
    exact ne_of_gt this
  have h3z : Vec3.Mag ⟨0, 0, 0⟩ = 0 := by
    simp [Vec3.Mag, Vec3.MagSq]
  have h3n : Vec3.Mag (⟨0, 3, 4⟩ : Vec3 ℝ) ≠ 0 := by
    have : (0 : ℝ) < Vec3.Mag ⟨0, 3, 4⟩ := by
      rw [Vec3.Mag]
      exact Real.sqrt_pos.mpr (by norm_num [Vec3.MagSq])
    exact ne_of_gt this
  have h4z : Vec4.Mag ⟨0, 0, 0, 0⟩ = 0 := by
    simp [Vec4.Mag, Vec4.MagSq]
  have h4n : Vec4.Mag (⟨0, 0, 3, 4⟩ : Vec4 ℝ) ≠ 0 := by
    have : (0 : ℝ) < Vec4.Mag ⟨0, 0, 3, 4⟩ := by
      rw [Vec4.Mag]
      exact Real.sqrt_pos.mpr (by norm_num [Vec4.MagSq])
    exact ne_of_gt this
  exact ⟨h2z, (C3_normalize_zero_safe.1 ⟨0, 0⟩ h2z).1,
    h2n, C3_normalize_zero_safe.2.1 ⟨3, 4⟩ h2n,
    h3z, (C3_normalize_zero_safe.2.2.1 ⟨0, 0, 0⟩ h3z).1,
    h3n, C3_normalize_zero_safe.2.2.2.1 ⟨0, 3, 4⟩ h3n,
    h4z, (C3_normalize_zero_safe.2.2.2.2.1 ⟨0, 0, 0, 0⟩ h4z).1,
    h4n, C3_normalize_zero_safe.2.2.2.2.2 ⟨0, 0, 3, 4⟩ h4n⟩

/-- C6: the point-to-segment distance is exactly the implicit-line formula
with coefficients a = ay - by, b = bx - ax, c = ax by - bx ay of the
infinite line through the endpoints, with no clamping; the distance from the
point (0, 5) to the segment from (0, 0) to (10, 0) is 5. -/
theorem C6_segment_point_distance :
    (∀ (s : Segment2 ℝ) (p : Vec2 ℝ),
      DistanceSeg s p =
        |(s.a.y - s.b.y) * p.x + (s.b.x - s.a.x) * p.y
            + (s.a.x * s.b.y - s.b.x * s.a.y)|
          / Real.sqrt (Sqr (s.a.y - s.b.y) + Sqr (s.b.x - s.a.x)))
    ∧ DistanceSeg ⟨⟨0, 0⟩, ⟨10, 0⟩⟩ ⟨0, 5⟩ = 5 := by
  refine ⟨fun s p => rfl, ?_⟩
  have h : Real.sqrt 100 = 10 := by
    rw [show (100 : ℝ) = 10 ^ 2 by norm_num, Real.sqrt_sq (by norm_num : (0:ℝ) ≤ 10)]
  simp only [DistanceSeg, Sqr]
  norm_num [h]

/-- C8 counterexample: for the segment from (1, 5) to (3, 7), `CenterA` is 3
— the average of endpoint a's own two coordinates — which equals neither
per-axis average of the two endpoints (the x-average is 2 and the y-average
is 6). -/
theorem C8_centers_counterexample :
    Segment2.CenterA (⟨⟨1, 5⟩, ⟨3, 7⟩⟩ : Segment2 ℝ) = 3
    ∧ ((1 : ℝ) + 3) / 2 = 2 ∧ ((5 : ℝ) + 7) / 2 = 6
    ∧ Segment2.CenterA (⟨⟨1, 5⟩, ⟨3, 7⟩⟩ : Segment2 ℝ) ≠ ((1 : ℝ) + 3) / 2
    ∧ Segment2.CenterA (⟨⟨1, 5⟩, ⟨3, 7⟩⟩ : Segment2 ℝ) ≠ ((5 : ℝ) + 7) / 2 := by
  norm_num [Segment2.CenterA, Avg]

/-- C8 amended: a segment's length is the Euclidean distance between its
endpoints, its combined 2D center is the midpoint of a and b, its delta is
b - a, and its per-endpoint centers `CenterA`/`CenterB` are the averages of
the respective endpoint's own two coordinates (not per-axis averages across
the two endpoints); for a = (0, 0), b = (4, 0): length 4, center (2, 0),
delta (4, 0). -/
theorem C8_segment_derived_values :
    (∀ s : Segment2 ℝ,
      s.Len = Real.sqrt (Sqr (s.b.x - s.a.x) + Sqr (s.b.y - s.a.y))
      ∧ s.Center = ⟨(s.a.x + s.b.x) / 2, (s.a.y + s.b.y) / 2⟩
      ∧ s.Delta = ⟨s.b.x - s.a.x, s.b.y - s.a.y⟩
      ∧ s.CenterA = (s.a.x + s.a.y) / 2 ∧ s.CenterB = (s.b.x + s.b.y) / 2)
    ∧ Segment2.Len ⟨⟨0, 0⟩, ⟨4, 0⟩⟩ = 4
    ∧ Segment2.Center ⟨⟨0, 0⟩, ⟨4, 0⟩⟩ = ⟨2, 0⟩
    ∧ Segment2.Delta ⟨⟨0, 0⟩, ⟨4, 0⟩⟩ = ⟨4, 0⟩ := by
  have hsqrt : Real.sqrt 16 = 4 := by
    rw [show (16 : ℝ) = 4 ^ 2 by norm_num, Real.sqrt_sq (by norm_num : (0:ℝ) ≤ 4)]
  refine ⟨fun s => ⟨rfl, ?_, rfl, rfl, rfl⟩, ?_, ?_, ?_⟩
  · simp only [Segment2.Center, AvgV, Vec2.addV, Vec2.mulS, Vec2.mk.injEq]
    constructor <;> ring
  · simp only [Segment2.Len, Distance, DistanceSq, Sqr]
    norm_num [hsqrt]
  · simp only [Segment2.Center, AvgV, Vec2.addV, Vec2.mulS, Vec2.mk.injEq]
    norm_num
  · simp only [Segment2.Delta, Vec2.subV, Vec2.mk.injEq]
    norm_num

/-- C1: mixed-length combination of two vectors (addition from the source;
subtract/multiply/divide spec-modelled via `mixedCombine`) yields a vector
of length `max n1 n2`; at indices below the shorter length the shorter
operand's element is combined with the longer operand's element by the
requested operator, and at indices beyond the shorter length the longer
operand's element is carried unchanged; `mixedAdd` is the instance of the
combinator at addition, and on the concrete vectors [1, 2] and
[10, 20, 30, 40] both orders give [11, 22, 30, 40]. -/
theorem C1_mixed_length_broadcast :
    (∀ (n1 n2 : Nat) (lhs : Fin n1 → ℤ) (rhs : Fin n2 → ℤ) (op : ℤ → ℤ → ℤ)
        (h : n1 < n2) (j : Fin (max n1 n2)),
      (∀ hj : j.val < n1,
        mixedCombine op lhs rhs j =
          op (rhs ⟨j.val, lt_of_lt_of_le j.isLt (max_le h.le le_rfl)⟩) (lhs ⟨j.val, hj⟩))
      ∧ (n1 ≤ j.val →
        mixedCombine op lhs rhs j =
          rhs ⟨j.val, lt_of_lt_of_le j.isLt (max_le h.le le_rfl)⟩))
    ∧ (∀ (n1 n2 : Nat) (lhs : Fin n1 → ℤ) (rhs : Fin n2 → ℤ) (op : ℤ → ℤ → ℤ)
        (h : n2 < n1) (j : Fin (max n1 n2)),
      (∀ hj : j.val < n2,
        mixedCombine op lhs rhs j =
          op (lhs ⟨j.val, lt_of_lt_of_le j.isLt (max_le le_rfl h.le)⟩) (rhs ⟨j.val, hj⟩))
      ∧ (n2 ≤ j.val →
        mixedCombine op lhs rhs j =
          lhs ⟨j.val, lt_of_lt_of_le j.isLt (max_le le_rfl h.le)⟩))
    ∧ (∀ (n1 n2 : Nat) (lhs : Fin n1 → ℤ) (rhs : Fin n2 → ℤ),
        mixedAdd lhs rhs = mixedCombine (· + ·) lhs rhs)
    ∧ (∀ j : Fin 4, mixedAdd (α := ℤ) ![1, 2] ![10, 20, 30, 40] j = ![11, 22, 30, 40] j)
    ∧ (∀ j : Fin 4, mixedAdd (α := ℤ) ![10, 20, 30, 40] ![1, 2] j = ![11, 22, 30, 40] j) := by
  refine ⟨?_, ?_, ?_, by decide, by decide⟩
  · intro n1 n2 lhs rhs op h j
    constructor
    · intro hj
      simp only [mixedCombine, dif_pos h, dif_pos hj]
    · intro hj
      simp only [mixedCombine, dif_pos h, dif_neg (Nat.not_lt.mpr hj)]
  · intro n1 n2 lhs rhs op h j
    have hno : ¬ n1 < n2 := Nat.not_lt.mpr h.le
    constructor
    · intro hj
      simp only [mixedCombine, dif_neg hno, dif_pos hj]
    · intro hj
      simp only [mixedCombine, dif_neg hno, dif_neg (Nat.not_lt.mpr hj)]
  · intro n1 n2 lhs rhs
    funext j
    simp only [mixedAdd, mixedCombine]

/-- C1 witness: at the concrete pair [1, 2] (length 2) and [10, 20, 30, 40]
(length 4) with addition, index 1 combines the operands and index 3 carries
the longer operand's element, in both operand orders. -/
theorem C1_mixed_length_broadcast_witness :
    (2 : Nat) < 4 ∧ (1 : Nat) < 2 ∧ (2 : Nat) ≤ 3
    ∧ mixedCombine (· + ·) (![1, 2] : Fin 2 → ℤ) ![10, 20, 30, 40] ⟨1, by decide⟩ = 20 + 2
    ∧ mixedCombine (· + ·) (![1, 2] : Fin 2 → ℤ) ![10, 20, 30, 40] ⟨3, by decide⟩ = 40
    ∧ mixedCombine (· + ·) (![10, 20, 30, 40] : Fin 4 → ℤ) ![1, 2] ⟨1, by decide⟩ = 20 + 2
    ∧ mixedCombine (· + ·) (![10, 20, 30, 40] : Fin 4 → ℤ) ![1, 2] ⟨3, by decide⟩ = 40
    ∧ mixedAdd (![1, 2] : Fin 2 → ℤ) ![10, 20, 30, 40]
        = mixedCombine (· + ·) ![1, 2] ![10, 20, 30, 40] :=
  ⟨by decide, by decide, by decide,
   ((C1_mixed_length_broadcast.1 2 4 ![1, 2] ![10, 20, 30, 40] (· + ·) (by decide)
     ⟨1, by decide⟩).1 (by decide)).trans (by decide),
   ((C1_mixed_length_broadcast.1 2 4 ![1, 2] ![10, 20, 30, 40] (· + ·) (by decide)
     ⟨3, by decide⟩).2 (by decide)).trans (by decide),
   ((C1_mixed_length_broadcast.2.1 4 2 ![10, 20, 30, 40] ![1, 2] (· + ·) (by decide)
     ⟨1, by decide⟩).1 (by decide)).trans (by decide),
   ((C1_mixed_length_broadcast.2.1 4 2 ![10, 20, 30, 40] ![1, 2] (· + ·) (by decide)
     ⟨3, by decide⟩).2 (by decide)).trans (by decide),
   C1_mixed_length_broadcast.2.2.1 2 4 ![1, 2] ![10, 20, 30, 40]⟩

end MathH
